import Mathlib

/-!
Verification of the moderation engine of `sprowii/sigmoida`.

This file is a shallow embedding, in Lean 4, of the parts of the Python
source relevant to the moderation-engine specification:

* `app/moderation/models.py`   — `ChatModSettings`, `Warn`, `Captcha`
* `app/moderation/storage.py`  — settings persistence, defaults, export/import
* `app/moderation/spam.py`     — flood windows, newbie link gate
* `app/moderation/warns.py`    — warning escalation
* `app/moderation/captcha.py`  — admission-challenge lifecycle and verify
* `app/moderation/content_filter.py` — blacklist word matching

Python floats used as timestamps are modelled as rationals, Redis
structures (ZSETs, strings, lists) as Lean lists and functions, and the
Redis store as explicit state passed through each operation.
-/

namespace Sigmoida

/-- Settings record for one chat, mirroring the dataclass
`ChatModSettings` of `app/moderation/models.py` field by field, with the
same dataclass defaults.  Numeric fields are `Int` (Python ints are
unbounded and imported payloads may carry negative values). -/
structure ChatModSettings where
  chat_id : Int
  welcome_enabled : Bool := false
  welcome_message : String := "Welcome, user!"
  welcome_delay_sec : Int := 0
  welcome_auto_delete_sec : Int := 0
  welcome_private : Bool := false
  spam_enabled : Bool := true
  spam_message_limit : Int := 5
  spam_time_window_sec : Int := 10
  spam_mute_duration_min : Int := 5
  link_filter_enabled : Bool := true
  link_newbie_hours : Int := 24
  link_action : String := "hold"
  link_whitelist : List String := []
  warn_mute_threshold : Int := 3
  warn_ban_threshold : Int := 5
  warn_mute_duration_hours : Int := 24
  captcha_enabled : Bool := false
  captcha_timeout_sec : Int := 120
  captcha_difficulty : String := "easy"
  captcha_fail_action : String := "kick"
  filter_words : List String := []
  filter_notify_user : Bool := true
  log_channel_id : Option Int := none
deriving DecidableEq

/-- Validation of settings, translated check by check from
`ChatModSettings.validate` in `app/moderation/models.py` (lines 55-102),
in source order.  The Python error strings interpolate the offending
value; the messages here elide the value, which preserves exactly the
emptiness and length of the returned list. -/
def ChatModSettings.validate (s : ChatModSettings) : List String :=
  (if ¬ (1 ≤ s.warn_mute_threshold ∧ s.warn_mute_threshold ≤ 10) then
    ["warn_mute_threshold must be between 1 and 10"] else [])
  ++ (if ¬ (1 ≤ s.warn_ban_threshold ∧ s.warn_ban_threshold ≤ 20) then
    ["warn_ban_threshold must be between 1 and 20"] else [])
  ++ (if s.warn_mute_threshold ≥ s.warn_ban_threshold then
    ["warn_mute_threshold must be less than warn_ban_threshold"] else [])
  ++ (if ¬ (1 ≤ s.spam_message_limit ∧ s.spam_message_limit ≤ 20) then
    ["spam_message_limit must be between 1 and 20"] else [])
  ++ (if ¬ (5 ≤ s.spam_time_window_sec ∧ s.spam_time_window_sec ≤ 60) then
    ["spam_time_window_sec must be between 5 and 60"] else [])
  ++ (if ¬ (1 ≤ s.spam_mute_duration_min ∧ s.spam_mute_duration_min ≤ 1440) then
    ["spam_mute_duration_min must be between 1 and 1440"] else [])
  ++ (if ¬ (30 ≤ s.captcha_timeout_sec ∧ s.captcha_timeout_sec ≤ 600) then
    ["captcha_timeout_sec must be between 30 and 600"] else [])
  ++ (if s.captcha_difficulty ∉ (["easy", "medium", "hard"] : List String) then
    ["captcha_difficulty must be easy/medium/hard"] else [])
  ++ (if s.captcha_fail_action ∉ (["kick", "mute"] : List String) then
    ["captcha_fail_action must be kick/mute"] else [])
  ++ (if ¬ (0 ≤ s.welcome_delay_sec ∧ s.welcome_delay_sec ≤ 30) then
    ["welcome_delay_sec must be between 0 and 30"] else [])
  ++ (if ¬ (0 ≤ s.welcome_auto_delete_sec ∧ s.welcome_auto_delete_sec ≤ 3600) then
    ["welcome_auto_delete_sec must be between 0 and 3600"] else [])
  ++ (if ¬ (0 ≤ s.link_newbie_hours ∧ s.link_newbie_hours ≤ 168) then
    ["link_newbie_hours must be between 0 and 168"] else [])
  ++ (if s.link_action ∉ (["delete", "warn", "hold"] : List String) then
    ["link_action must be delete/warn/hold"] else [])

/-- An `if`-guarded singleton error list is empty exactly when the guard
fails.  Helper for reasoning about `ChatModSettings.validate`. -/
theorem err_singleton_eq_nil {c : Prop} [Decidable c] {m : String} :
    (if c then [m] else ([] : List String)) = [] ↔ ¬ c := by
  split <;> simp_all

/-- C8: `validate` returns the empty list if and only if every numeric
and enum field lies within its documented closed range and
`warn_mute_threshold < warn_ban_threshold`. -/
theorem validate_eq_nil_iff (s : ChatModSettings) :
    s.validate = [] ↔
      ((1 ≤ s.warn_mute_threshold ∧ s.warn_mute_threshold ≤ 10) ∧
       (1 ≤ s.warn_ban_threshold ∧ s.warn_ban_threshold ≤ 20) ∧
       (1 ≤ s.spam_message_limit ∧ s.spam_message_limit ≤ 20) ∧
       (5 ≤ s.spam_time_window_sec ∧ s.spam_time_window_sec ≤ 60) ∧
       (1 ≤ s.spam_mute_duration_min ∧ s.spam_mute_duration_min ≤ 1440) ∧
       (30 ≤ s.captcha_timeout_sec ∧ s.captcha_timeout_sec ≤ 600) ∧
       s.captcha_difficulty ∈ (["easy", "medium", "hard"] : List String) ∧
       s.captcha_fail_action ∈ (["kick", "mute"] : List String) ∧
       (0 ≤ s.welcome_delay_sec ∧ s.welcome_delay_sec ≤ 30) ∧
       (0 ≤ s.welcome_auto_delete_sec ∧ s.welcome_auto_delete_sec ≤ 3600) ∧
       (0 ≤ s.link_newbie_hours ∧ s.link_newbie_hours ≤ 168) ∧
       s.link_action ∈ (["delete", "warn", "hold"] : List String) ∧
       s.warn_mute_threshold < s.warn_ban_threshold) := by
  simp only [ChatModSettings.validate, List.append_eq_nil, err_singleton_eq_nil, not_not,
    ge_iff_le, not_le]
  tauto

/-- Escalation outcome of adding a warning, mirroring the enum
`WarnEscalation` of `app/moderation/warns.py`. -/
inductive WarnEscalation
  | none
  | mute
  | ban
deriving DecidableEq

/-- One warning record, mirroring the dataclass `Warn` of
`app/moderation/models.py` (the uuid is kept as an opaque string and the
float timestamp as a rational). -/
structure Warn where
  id : String
  chat_id : Int
  user_id : Int
  admin_id : Int
  reason : String
  timestamp : ℚ
deriving DecidableEq

/-- Result record of `WarnSystem.add_warn`, mirroring `WarnResult` of
`app/moderation/warns.py`. -/
structure WarnResult where
  warn : Warn
  total_warns : Int
  escalation : WarnEscalation
  mute_duration_hours : Int := 0
deriving DecidableEq

/-- Escalation rule, translated from `WarnSystem._determine_escalation`
(`app/moderation/warns.py` lines 86-110): ban threshold is checked
first, then mute threshold, else none. -/
def determine_escalation (warn_count : Int) (s : ChatModSettings) :
    WarnEscalation × Int :=
  if warn_count ≥ s.warn_ban_threshold then (WarnEscalation.ban, 0)
  else if warn_count ≥ s.warn_mute_threshold then
    (WarnEscalation.mute, s.warn_mute_duration_hours)
  else (WarnEscalation.none, 0)

/-- The per-(chat, user) warning list lives in a Redis list; `save_warn`
(`app/moderation/storage.py`) appends with `rpush`. -/
def save_warn (store : List Warn) (w : Warn) : List Warn :=
  store ++ [w]

/-- Warning count, `count_warns` of `app/moderation/storage.py`
(`llen` of the Redis list). -/
def count_warns (store : List Warn) : Int :=
  (store.length : Int)

/-- Adding a warning, translated from `WarnSystem.add_warn`
(`app/moderation/warns.py` lines 112-160): save the warning, re-read the
total count, and determine escalation on the new total. -/
def add_warn (s : ChatModSettings) (store : List Warn) (w : Warn) :
    List Warn × WarnResult :=
  let store' := save_warn store w
  let total := count_warns store'
  let e := determine_escalation total s
  (store', { warn := w, total_warns := total, escalation := e.1,
             mute_duration_hours := e.2 })

/-- The dataclass defaults of `ChatModSettings` (warn thresholds 3 and 5,
mute duration 24 hours), as produced by `ChatModSettings(chat_id=c)`. -/
def dataclass_defaults (chat_id : Int) : ChatModSettings :=
  { chat_id := chat_id }

/-- Sample warning used to instantiate universally quantified theorems. -/
def demo_warn : Warn :=
  { id := "w1", chat_id := 0, user_id := 1, admin_id := 2,
    reason := "spam", timestamp := 0 }

/-- C2: `add_warn` stores the new warning and evaluates escalation on the
new total count: ban when the total reaches the ban threshold (taking
precedence over mute), else mute with the configured duration in hours
when it reaches the mute threshold, else none; with the default
thresholds 3/5, totals 1-2 give none, 3-4 give mute with 24 hours, and a
total of 5 gives ban, never mute. -/
theorem add_warn_escalation (s : ChatModSettings) (store : List Warn) (w : Warn) :
    (add_warn s store w).1 = store ++ [w] ∧
    (add_warn s store w).2.warn = w ∧
    (add_warn s store w).2.total_warns = (store.length : Int) + 1 ∧
    ((add_warn s store w).2.escalation = WarnEscalation.ban ↔
      s.warn_ban_threshold ≤ (store.length : Int) + 1) ∧
    ((add_warn s store w).2.escalation = WarnEscalation.mute ↔
      ((store.length : Int) + 1 < s.warn_ban_threshold ∧
       s.warn_mute_threshold ≤ (store.length : Int) + 1)) ∧
    ((add_warn s store w).2.escalation = WarnEscalation.mute →
      (add_warn s store w).2.mute_duration_hours = s.warn_mute_duration_hours) ∧
    ((add_warn s store w).2.escalation = WarnEscalation.none ↔
      ((store.length : Int) + 1 < s.warn_ban_threshold ∧
       (store.length : Int) + 1 < s.warn_mute_threshold)) ∧
    determine_escalation 1 (dataclass_defaults 0) = (WarnEscalation.none, 0) ∧
    determine_escalation 2 (dataclass_defaults 0) = (WarnEscalation.none, 0) ∧
    determine_escalation 3 (dataclass_defaults 0) = (WarnEscalation.mute, 24) ∧
    determine_escalation 4 (dataclass_defaults 0) = (WarnEscalation.mute, 24) ∧
    determine_escalation 5 (dataclass_defaults 0) = (WarnEscalation.ban, 0) := by
  refine ⟨rfl, rfl, ?_, ?_, ?_, ?_, ?_, by decide, by decide, by decide, by decide, by decide⟩
  · simp [add_warn, save_warn, count_warns]
  all_goals
    simp only [add_warn, save_warn, count_warns, determine_escalation, List.length_append,
      List.length_singleton, Nat.cast_add, Nat.cast_one, ge_iff_le]
    split_ifs <;> simp_all

/-- Witness: instantiating `add_warn_escalation` at concrete inputs, the
first warning under the default thresholds escalates to nothing. -/
theorem add_warn_escalation_witness :
    (add_warn (dataclass_defaults 0) [] demo_warn).2.total_warns = 1 ∧
    ((add_warn (dataclass_defaults 0) [] demo_warn).2.escalation = WarnEscalation.none ↔
      ((([] : List Warn).length : Int) + 1 < (dataclass_defaults 0).warn_ban_threshold ∧
       (([] : List Warn).length : Int) + 1 < (dataclass_defaults 0).warn_mute_threshold)) :=
  ⟨(add_warn_escalation (dataclass_defaults 0) [] demo_warn).2.2.1,
   (add_warn_escalation (dataclass_defaults 0) [] demo_warn).2.2.2.2.2.2.1⟩

/-- A raw value stored under `mod_settings:{chat_id}` in Redis: either an
unreadable/malformed payload (JSON decode or constructor failure in
`load_settings`) or a decoded settings record. -/
inductive StoredSettings
  | malformed
  | ok (s : ChatModSettings)
deriving DecidableEq

/-- The settings store, keyed by chat id (`mod_settings:` prefix). -/
def SettingsStore : Type :=
  Int → Option StoredSettings

/-- Saving settings, from `save_settings` of `app/moderation/storage.py`
(lines 54-62): serialize and `SET` under the chat's key.  No validation
is performed here. -/
def save_settings (store : SettingsStore) (s : ChatModSettings) : SettingsStore :=
  fun k => if k = s.chat_id then some (StoredSettings.ok s) else store k

/-- Default settings for a never-configured chat, from
`_get_default_settings` of `app/moderation/storage.py` (lines 34-47):
only the spam filter is enabled; the remaining fields keep the dataclass
defaults. -/
def get_default_settings (chat_id : Int) : ChatModSettings :=
  { chat_id := chat_id
    spam_enabled := true
    welcome_enabled := false
    captcha_enabled := false
    link_filter_enabled := false }

/-- Loading settings, from `load_settings` of `app/moderation/storage.py`
(lines 71-94): a missing or malformed stored value falls back to the
defaults, and the chat id of a decoded record is overwritten with the
requested chat id (`data["chat_id"] = chat_id`). -/
def load_settings (store : SettingsStore) (chat_id : Int) : ChatModSettings :=
  match store chat_id with
  | none => get_default_settings chat_id
  | some StoredSettings.malformed => get_default_settings chat_id
  | some (StoredSettings.ok s) => { s with chat_id := chat_id }

/-- The JSON export payload: every `ChatModSettings` field except
`chat_id`, which `export_settings` deletes from the dict
(`del data["chat_id"]`) so that the payload structurally contains no
chat identifier. -/
structure SettingsPayload where
  welcome_enabled : Bool := false
  welcome_message : String := "Welcome, user!"
  welcome_delay_sec : Int := 0
  welcome_auto_delete_sec : Int := 0
  welcome_private : Bool := false
  spam_enabled : Bool := true
  spam_message_limit : Int := 5
  spam_time_window_sec : Int := 10
  spam_mute_duration_min : Int := 5
  link_filter_enabled : Bool := true
  link_newbie_hours : Int := 24
  link_action : String := "hold"
  link_whitelist : List String := []
  warn_mute_threshold : Int := 3
  warn_ban_threshold : Int := 5
  warn_mute_duration_hours : Int := 24
  captcha_enabled : Bool := false
  captcha_timeout_sec : Int := 120
  captcha_difficulty : String := "easy"
  captcha_fail_action : String := "kick"
  filter_words : List String := []
  filter_notify_user : Bool := true
  log_channel_id : Option Int := none
deriving DecidableEq

/-- Projection of a settings record to the export payload
(`asdict(settings)` followed by `del data["chat_id"]`). -/
def settings_to_payload (s : ChatModSettings) : SettingsPayload :=
  { welcome_enabled := s.welcome_enabled
    welcome_message := s.welcome_message
    welcome_delay_sec := s.welcome_delay_sec
    welcome_auto_delete_sec := s.welcome_auto_delete_sec
    welcome_private := s.welcome_private
    spam_enabled := s.spam_enabled
    spam_message_limit := s.spam_message_limit
    spam_time_window_sec := s.spam_time_window_sec
    spam_mute_duration_min := s.spam_mute_duration_min
    link_filter_enabled := s.link_filter_enabled
    link_newbie_hours := s.link_newbie_hours
    link_action := s.link_action
    link_whitelist := s.link_whitelist
    warn_mute_threshold := s.warn_mute_threshold
    warn_ban_threshold := s.warn_ban_threshold
    warn_mute_duration_hours := s.warn_mute_duration_hours
    captcha_enabled := s.captcha_enabled
    captcha_timeout_sec := s.captcha_timeout_sec
    captcha_difficulty := s.captcha_difficulty
    captcha_fail_action := s.captcha_fail_action
    filter_words := s.filter_words
    filter_notify_user := s.filter_notify_user
    log_channel_id := s.log_channel_id }

/-- Reconstruction of a settings record from a payload and an externally
supplied chat id (`data["chat_id"] = chat_id; ChatModSettings(**data)`). -/
def payload_to_settings (chat_id : Int) (p : SettingsPayload) : ChatModSettings :=
  { chat_id := chat_id
    welcome_enabled := p.welcome_enabled
    welcome_message := p.welcome_message
    welcome_delay_sec := p.welcome_delay_sec
    welcome_auto_delete_sec := p.welcome_auto_delete_sec
    welcome_private := p.welcome_private
    spam_enabled := p.spam_enabled
    spam_message_limit := p.spam_message_limit
    spam_time_window_sec := p.spam_time_window_sec
    spam_mute_duration_min := p.spam_mute_duration_min
    link_filter_enabled := p.link_filter_enabled
    link_newbie_hours := p.link_newbie_hours
    link_action := p.link_action
    link_whitelist := p.link_whitelist
    warn_mute_threshold := p.warn_mute_threshold
    warn_ban_threshold := p.warn_ban_threshold
    warn_mute_duration_hours := p.warn_mute_duration_hours
    captcha_enabled := p.captcha_enabled
    captcha_timeout_sec := p.captcha_timeout_sec
    captcha_difficulty := p.captcha_difficulty
    captcha_fail_action := p.captcha_fail_action
    filter_words := p.filter_words
    filter_notify_user := p.filter_notify_user
    log_channel_id := p.log_channel_id }

/-- Exporting settings, from `export_settings` of
`app/moderation/storage.py` (lines 113-122): load (with default
fallback), serialize, and drop the chat id.  The JSON encoding itself is
faithful on decoded payloads and is modelled as the identity. -/
def export_settings (store : SettingsStore) (chat_id : Int) : SettingsPayload :=
  settings_to_payload (load_settings store chat_id)

/-- Importing settings, from `import_settings` of
`app/moderation/storage.py` (lines 125-151), on an already-decoded
payload: the chat id is taken from the call argument, the record is
validated, and only a record with no violations is saved; otherwise the
error list is raised and the store is left untouched. -/
def import_settings (store : SettingsStore) (chat_id : Int) (p : SettingsPayload) :
    Except (List String) (SettingsStore × ChatModSettings) :=
  let s := payload_to_settings chat_id p
  if s.validate = [] then Except.ok (save_settings store s, s)
  else Except.error s.validate

/-- A store with no settings recorded for any chat. -/
def empty_store : SettingsStore :=
  fun _ => none

/-- C10: loading never fails: a chat with no stored settings, and a chat
whose stored payload is malformed, both load the conservative default
policy for that chat id, which enables only the spam filter and disables
welcome, captcha and the link filter. -/
theorem load_settings_defaults (store : SettingsStore) (chatId : Int) :
    (store chatId = none → load_settings store chatId = get_default_settings chatId) ∧
    (store chatId = some StoredSettings.malformed →
      load_settings store chatId = get_default_settings chatId) ∧
    (get_default_settings chatId).spam_enabled = true ∧
    (get_default_settings chatId).welcome_enabled = false ∧
    (get_default_settings chatId).captcha_enabled = false ∧
    (get_default_settings chatId).link_filter_enabled = false ∧
    (get_default_settings chatId).chat_id = chatId := by
  refine ⟨?_, ?_, rfl, rfl, rfl, rfl, rfl⟩ <;> intro h <;> unfold load_settings <;> rw [h]

/-- Witness: `load_settings_defaults` applied to the empty store and a
concrete chat id. -/
theorem load_settings_defaults_witness :
    load_settings empty_store 7 = get_default_settings 7 ∧
    (get_default_settings 7).spam_enabled = true :=
  ⟨(load_settings_defaults empty_store 7).1 rfl,
   (load_settings_defaults empty_store 7).2.2.1⟩

/-- Settings violating the validation ranges (mute threshold 0 is below
the documented minimum of 1). -/
def invalid_settings : ChatModSettings :=
  { chat_id := 1, warn_mute_threshold := 0 }

/-- C5 counterexample: `save_settings` performs no validation — a
settings record whose `validate` is non-empty is nevertheless persisted,
and the stored value for its chat changes. -/
theorem save_settings_no_validation_cex :
    invalid_settings.validate ≠ [] ∧
    save_settings empty_store invalid_settings 1 =
      some (StoredSettings.ok invalid_settings) ∧
    empty_store 1 = none := by
  refine ⟨by decide, rfl, rfl⟩

/-- C5 (amended): `save_settings` persists unconditionally, without
validating; the validating write path is `import_settings`, which fails
with the full violation list and persists nothing when `validate` is
non-empty, and atomically replaces the stored value when `validate` is
empty. -/
theorem save_and_import_validation (store : SettingsStore) (s : ChatModSettings)
    (chatId : Int) (p : SettingsPayload) :
    save_settings store s s.chat_id = some (StoredSettings.ok s) ∧
    ((payload_to_settings chatId p).validate ≠ [] → import_settings store chatId p =
        Except.error (payload_to_settings chatId p).validate) ∧
    ((payload_to_settings chatId p).validate = [] → import_settings store chatId p =
        Except.ok (save_settings store (payload_to_settings chatId p),
                   payload_to_settings chatId p)) := by
  refine ⟨by simp [save_settings], ?_, ?_⟩
  · intro h
    simp only [import_settings]
    rw [if_neg h]
  · intro h
    simp only [import_settings]
    rw [if_pos h]

/-- Witness: `save_and_import_validation` at concrete inputs — saving the
default settings stores them under their chat id. -/
theorem save_and_import_validation_witness :
    save_settings empty_store (get_default_settings 3) (get_default_settings 3).chat_id =
      some (StoredSettings.ok (get_default_settings 3)) :=
  (save_and_import_validation empty_store (get_default_settings 3) 3
    (settings_to_payload (get_default_settings 3))).1

/-- C7: for a stored, valid settings record, importing the export yields
an equal record and updates the store by re-saving it; and whenever
an import succeeds, the chat id of the result is the call argument,
never a value from the payload (the payload has no chat id field). -/
theorem export_import_roundtrip (store : SettingsStore) (chatId : Int)
    (s : ChatModSettings) (hstore : store chatId = some (StoredSettings.ok s))
    (hid : s.chat_id = chatId) (hvalid : s.validate = []) :
    (import_settings store chatId (export_settings store chatId)) =
      Except.ok (save_settings store s, s) ∧
    (∀ st p st' r, import_settings st chatId p = Except.ok (st', r) →
      r.chat_id = chatId) := by
  subst hid
  have hload : load_settings store s.chat_id = s := by
    unfold load_settings
    rw [hstore]
  constructor
  · unfold import_settings export_settings
    rw [hload]
    have hps : payload_to_settings s.chat_id (settings_to_payload s) = s := rfl
    rw [hps, if_pos hvalid]
  · intro st p st' r h
    simp only [import_settings] at h
    split at h
    · simp only [Except.ok.injEq, Prod.mk.injEq] at h
      obtain ⟨-, h2⟩ := h
      subst h2
      rfl
    · cases h

/-- Witness: `export_import_roundtrip` on a store holding the (valid)
default settings for chat 7. -/
theorem export_import_roundtrip_witness :
    (import_settings
        (save_settings empty_store (get_default_settings 7)) 7
        (export_settings (save_settings empty_store (get_default_settings 7)) 7)) =
      Except.ok
        (save_settings (save_settings empty_store (get_default_settings 7))
          (get_default_settings 7),
         get_default_settings 7) :=
  (export_import_roundtrip (save_settings empty_store (get_default_settings 7)) 7
    (get_default_settings 7) (by rfl) rfl (by decide)).1

/-- Action kinds of the spam check, from the enum `SpamAction` of
`app/moderation/spam.py`. -/
inductive SpamAction
  | none
  | mute
  | delete
  | warn
  | hold
deriving DecidableEq

/-- Result of a spam check, from the dataclass `SpamCheckResult` of
`app/moderation/spam.py`. -/
structure SpamCheckResult where
  action : SpamAction
  reason : String
  should_delete : Bool := false
  mute_duration_min : Int := 0
  message_ids_to_delete : List Int := []
deriving DecidableEq

/-- A per-(chat, user) flood window is a Redis ZSET whose members are the
string timestamps and whose scores are the timestamps themselves, so it
is a finite set of timestamps; modelled as a duplicate-free list.
`zadd` inserts a timestamp (a duplicate timestamp maps to the same
member and leaves the set unchanged). -/
def zadd (w : List ℚ) (ts : ℚ) : List ℚ :=
  if ts ∈ w then w else w ++ [ts]

/-- The `zremrangebyscore key -inf cutoff` step: drop every entry with
score at most `cutoff`. -/
def zremrangebyscore_upto (w : List ℚ) (cutoff : ℚ) : List ℚ :=
  w.filter (fun t => decide (cutoff < t))

/-- The `zcount key lo hi` step: entries with score in `[lo, hi]`. -/
def zcount (w : List ℚ) (lo hi : ℚ) : Nat :=
  (w.filter (fun t => decide (lo ≤ t ∧ t ≤ hi))).length

/-- Recording a message timestamp, from `SpamFilter.record_message`
(`app/moderation/spam.py` lines 135-157): one pipeline that adds the
timestamp to the ZSET and prunes entries older than twice the configured
window (the `expire` step only sets a key TTL and has no effect on the
live window contents). -/
def record_message (s : ChatModSettings) (w : List ℚ) (ts : ℚ) : List ℚ :=
  zremrangebyscore_upto (zadd w ts) (ts - 2 * (s.spam_time_window_sec : ℚ))

/-- Flood check, from `SpamFilter.check_flood` (`app/moderation/spam.py`
lines 159-183): count entries within the trailing window and compare
against the message limit (equality trips). -/
def check_flood (s : ChatModSettings) (w : List ℚ) (ts : ℚ) : Bool :=
  decide (s.spam_message_limit ≤
    (zcount w (ts - (s.spam_time_window_sec : ℚ)) ts : Int))

/-- The flood branch of `SpamFilter.check_message`
(`app/moderation/spam.py` lines 421-435), reached when neither the spam
patterns nor the newbie link gate fired: when spam detection is enabled,
record the timestamp, then check the flood window and return a mute
decision carrying `spam_mute_duration_min`, else no action.  The state
is the user's flood window. -/
def check_message_flood (s : ChatModSettings) (w : List ℚ) (ts : ℚ) :
    List ℚ × SpamCheckResult :=
  if s.spam_enabled then
    let w' := record_message s w ts
    if check_flood s w' ts then
      (w', { action := SpamAction.mute, reason := "flood", should_delete := true,
             mute_duration_min := s.spam_mute_duration_min })
    else (w', { action := SpamAction.none, reason := "" })
  else (w, { action := SpamAction.none, reason := "" })

/-- Processing a sequence of messages from one user through the flood
branch, starting from an absent (empty) window. -/
def run_flood (s : ChatModSettings) (timestamps : List ℚ) :
    List ℚ × SpamCheckResult :=
  timestamps.foldl (fun acc t => check_message_flood s acc.1 t)
    ([], { action := SpamAction.none, reason := "" })

/-- C1: with spam detection enabled, each processed message first records
its timestamp (after which the window holds the timestamp and only
entries newer than twice the configured window) and then counts entries
within the trailing window; the result is a mute decision carrying the
configured `spam_mute_duration_min` exactly when that count reaches
`spam_message_limit`, and no action otherwise.  Concretely, with the
default limit 5 and window 10: messages at 0, 2, 4, 6, 9 trip on the
fifth message with count 5, while a sixth message at 15 does not trip. -/
theorem flood_record_then_count (s : ChatModSettings) (w : List ℚ) (ts : ℚ)
    (hs : s.spam_enabled = true) (hw : 0 < s.spam_time_window_sec) :
    (check_message_flood s w ts).1 = record_message s w ts ∧
    ts ∈ (check_message_flood s w ts).1 ∧
    (∀ t ∈ (check_message_flood s w ts).1,
      ts - 2 * (s.spam_time_window_sec : ℚ) < t) ∧
    ((check_message_flood s w ts).2 =
        { action := SpamAction.mute, reason := "flood", should_delete := true,
          mute_duration_min := s.spam_mute_duration_min } ↔
      s.spam_message_limit ≤
        (zcount (record_message s w ts) (ts - (s.spam_time_window_sec : ℚ)) ts : Int)) ∧
    ((check_message_flood s w ts).2.action = SpamAction.none ↔
      ¬ s.spam_message_limit ≤
        (zcount (record_message s w ts) (ts - (s.spam_time_window_sec : ℚ)) ts : Int)) ∧
    (run_flood (get_default_settings 0) [0, 2, 4, 6, 9]).2 =
      { action := SpamAction.mute, reason := "flood", should_delete := true,
        mute_duration_min := 5 } ∧
    zcount (run_flood (get_default_settings 0) [0, 2, 4, 6, 9]).1 (9 - 10) 9 = 5 ∧
    (run_flood (get_default_settings 0) [0, 2, 4, 6, 9, 15]).2.action = SpamAction.none := by
  have hwq : (0 : ℚ) < (s.spam_time_window_sec : ℚ) := by exact_mod_cast hw
  have h1 : (check_message_flood s w ts).1 = record_message s w ts := by
    simp only [check_message_flood, hs, if_true]
    split <;> rfl
  have hts : ts ∈ record_message s w ts := by
    unfold record_message zremrangebyscore_upto
    rw [List.mem_filter]
    constructor
    · unfold zadd
      split
      · assumption
      · simp
    · rw [decide_eq_true_eq]
      linarith
  refine ⟨h1, ?_, ?_, ?_, ?_, ?_, ?_, ?_⟩
  · rw [h1]
    exact hts
  · rw [h1]
    intro t ht
    unfold record_message zremrangebyscore_upto at ht
    rw [List.mem_filter, decide_eq_true_eq] at ht
    exact ht.2
  · simp only [check_message_flood, hs, if_true]
    split
    · rename_i hc
      unfold check_flood at hc
      rw [decide_eq_true_eq] at hc
      exact iff_of_true rfl hc
    · rename_i hc
      unfold check_flood at hc
      rw [decide_eq_true_eq] at hc
      refine iff_of_false ?_ hc
      intro hcontra
      exact absurd (congrArg SpamCheckResult.action hcontra) (by simp)
  · simp only [check_message_flood, hs, if_true]
    split
    · rename_i hc
      unfold check_flood at hc
      rw [decide_eq_true_eq] at hc
      exact iff_of_false (by simp) (not_not_intro hc)
    · rename_i hc
      unfold check_flood at hc
      rw [decide_eq_true_eq] at hc
      exact iff_of_true rfl hc
  · norm_num [run_flood, List.foldl, check_message_flood, get_default_settings,
      record_message, zadd, zremrangebyscore_upto, check_flood, zcount, List.filter]
  · norm_num [run_flood, List.foldl, check_message_flood, get_default_settings,
      record_message, zadd, zremrangebyscore_upto, check_flood, zcount, List.filter]
  · norm_num [run_flood, List.foldl, check_message_flood, get_default_settings,
      record_message, zadd, zremrangebyscore_upto, check_flood, zcount, List.filter]

/-- Witness: `flood_record_then_count` at the default settings (spam
enabled, window 10), an empty window, and timestamp 0. -/
theorem flood_record_then_count_witness :
    (get_default_settings 0).spam_enabled = true ∧
    0 < (get_default_settings 0).spam_time_window_sec ∧
    (0 : ℚ) ∈ (check_message_flood (get_default_settings 0) [] 0).1 :=
  ⟨rfl, by decide,
   (flood_record_then_count (get_default_settings 0) [] 0 rfl (by decide)).2.1⟩

/-- Status of the admission-challenge timeout task
(`CaptchaManager._handle_timeout`): still sleeping through
`captcha_timeout_sec`; woken (the sleep returned but the body has not
run yet); enforcing (the body re-fetched a live record and is suspended
at its first enforcement await, `bot.delete_message`, with the
fail-action, record deletion and audit write still ahead of it);
cancelled (its next await raises `CancelledError`, caught and
swallowed); or finished. -/
inductive TimerState
  | sleeping
  | woken
  | enforcing
  | cancelled
  | done
deriving DecidableEq

/-- Observable state of one issued admission challenge for a fixed
(chat, user): whether the `captcha:` record is still in the store,
the timeout task status, how many fail-actions (kick/mute enforcement)
and automatic audit entries have been produced, and whether a correct
answer has been accepted. -/
structure ChallengeProc where
  record : Bool
  timer : TimerState
  fail_actions : Nat
  audit_entries : Nat
  solved : Bool
deriving DecidableEq

/-- State after `CaptchaManager.create_captcha`: the record is stored and
the timeout task is started. -/
def issue_challenge : ChallengeProc :=
  { record := true, timer := TimerState.sleeping, fail_actions := 0,
    audit_entries := 0, solved := false }

/-- Events on a live challenge.  `verify_ok` is
`CaptchaManager.verify_answer` with the correct answer through the
manager instance that owns the timer task; `verify_ok_other` is the same
verification through a manager whose task table does not hold the timer
— which is what `ModerationController.verify_captcha` always does, since
it constructs a fresh `CaptchaManager`, so its cancel step finds no task
and only the record deletion takes effect; `elapse` is
`asyncio.sleep(captcha_timeout_sec)` returning; `fire_refetch` is the
handler resuming after the sleep and running synchronously through
`get_captcha` (whose body performs a blocking Redis read, not an event
loop yield) up to its first enforcement await; `fire_enforce` is the
rest of the handler body: captcha-message deletion, the configured
fail-action (kick as ban-then-unban, or a timed mute), `remove_captcha`,
and the automatic audit entry. -/
inductive ChallengeEv
  | verify_ok
  | verify_ok_other
  | elapse
  | fire_refetch
  | fire_enforce
deriving DecidableEq

/-- Cancelling the timeout task (`task.cancel()` in
`CaptchaManager.verify_answer`): a sleeping or merely woken task gets
`CancelledError` at its resume and its body never runs; a task already
inside its body, or finished, is not stopped by this model — once the
enforcement block has begun it is taken to run to completion (the
enforcement request may already be in flight; moreover the deployed
controller wiring only ever verifies through a fresh manager, which
cannot cancel at all). -/
def cancel_timeout : TimerState → TimerState
  | TimerState.sleeping => TimerState.cancelled
  | TimerState.woken => TimerState.cancelled
  | t => t

/-- One event step.  `verify_ok` with a live record cancels the timer
first and deletes the record second (the order in
`CaptchaManager.verify_answer`, lines 443-458); without a live record
verification returns false and does nothing; `verify_ok_other` deletes
the record without being able to cancel.  `fire_refetch` models
`_handle_timeout` from the end of the sleep to the first enforcement
await (lines 334-345): it runs only if the task was not cancelled,
re-fetches the challenge, and if the record is gone the handler is a
no-op; with a live record the handler moves on to enforcement.
`fire_enforce` (lines 342-391) then applies exactly one fail-action,
deletes the record and writes one automatic audit entry — the handler
holds the record it fetched and does not check the store again, so an
intervening deletion of the record does not stop it. -/
def challenge_step (s : ChallengeProc) : ChallengeEv → ChallengeProc
  | ChallengeEv.verify_ok =>
      if s.record then
        { s with timer := cancel_timeout s.timer, record := false, solved := true }
      else s
  | ChallengeEv.verify_ok_other =>
      if s.record then { s with record := false, solved := true } else s
  | ChallengeEv.elapse =>
      if s.timer = TimerState.sleeping then { s with timer := TimerState.woken } else s
  | ChallengeEv.fire_refetch =>
      if s.timer = TimerState.woken then
        if s.record then { s with timer := TimerState.enforcing }
        else { s with timer := TimerState.done }
      else s
  | ChallengeEv.fire_enforce =>
      if s.timer = TimerState.enforcing then
        { record := false, timer := TimerState.done,
          fail_actions := s.fail_actions + 1,
          audit_entries := s.audit_entries + 1, solved := s.solved }
      else s

/-- Execution of an event sequence from a freshly issued challenge. -/
def run_challenge (evs : List ChallengeEv) : ChallengeProc :=
  evs.foldl challenge_step issue_challenge

/-- Invariant of the challenge lifecycle: every automatic audit entry
matches a fail-action one-to-one, at most one fail-action ever fires,
and no fail-action has fired while the handler has not yet completed its
enforcement block. -/
def challenge_inv (s : ChallengeProc) : Prop :=
  s.audit_entries = s.fail_actions ∧ s.fail_actions ≤ 1 ∧
  ((s.timer = TimerState.sleeping ∨ s.timer = TimerState.woken ∨
    s.timer = TimerState.enforcing) → s.fail_actions = 0)

theorem challenge_inv_step (s : ChallengeProc) (e : ChallengeEv)
    (h : challenge_inv s) : challenge_inv (challenge_step s e) := by
  obtain ⟨rec, tm, fl, au, sol⟩ := s
  cases rec <;> cases sol <;> cases e <;> cases tm <;>
    simp_all [challenge_inv, challenge_step, cancel_timeout]

theorem challenge_inv_run (evs : List ChallengeEv) :
    challenge_inv (run_challenge evs) := by
  have key : ∀ (l : List ChallengeEv) (s : ChallengeProc), challenge_inv s →
      challenge_inv (l.foldl challenge_step s) := by
    intro l
    induction l with
    | nil =>
        intro s hs
        exact hs
    | cons e t ih =>
        intro s hs
        exact ih (challenge_step s e) (challenge_inv_step s e hs)
  exact key evs issue_challenge (by simp [challenge_inv, issue_challenge])

/-- C3 counterexample: two terminal outcomes for one challenge are
reachable.  The timeout elapses and the handler re-fetches the still-live
record, then suspends at its enforcement awaits; the user's correct
answer is verified through the controller path (a fresh `CaptchaManager`
whose cancel step finds no timer task) and deletes the record; the
handler then resumes and still applies the fail-action and writes the
automatic audit entry.  The final state is both solved and enforced —
refuting the claim that a verify success before the fail-action fires
leaves the fail-action unfired, and that one challenge never produces
two terminal actions. -/
theorem challenge_two_terminal_cex :
    run_challenge [ChallengeEv.elapse, ChallengeEv.fire_refetch,
        ChallengeEv.verify_ok_other, ChallengeEv.fire_enforce] =
      { record := false, timer := TimerState.done, fail_actions := 1,
        audit_entries := 1, solved := true } ∧
    (run_challenge [ChallengeEv.elapse, ChallengeEv.fire_refetch,
        ChallengeEv.verify_ok_other, ChallengeEv.fire_enforce]).solved = true ∧
    1 ≤ (run_challenge [ChallengeEv.elapse, ChallengeEv.fire_refetch,
        ChallengeEv.verify_ok_other, ChallengeEv.fire_enforce]).fail_actions := by
  refine ⟨by decide, by decide, by decide⟩

/-- C3 (amended): along any event sequence at most one fail-action fires
and automatic audit entries match fail-actions one-to-one.  A verify
succeeding before the timeout elapses leaves the fail-action unfired
forever: through the timer-owning manager the pending timer is cancelled
before the record is deleted, and through the controller path (which
cannot cancel) the woken handler re-fetches the record, finds it already
deleted, and is a no-op.  The same holds for an owning-manager verify
arriving after the timeout elapsed but before the handler body ran.  A
timeout that elapses with no successful verify produces exactly one
fail-action and exactly one automatic audit entry, and stale extra
events change nothing.  But a controller-path verify that succeeds after
the handler re-fetched a live record, while the handler is suspended at
its enforcement awaits, does not prevent enforcement: that interleaving
ends solved with one fail-action and one audit entry. -/
theorem challenge_lifecycle_amended :
    (∀ evs : List ChallengeEv,
      (run_challenge evs).fail_actions ≤ 1 ∧
      (run_challenge evs).audit_entries = (run_challenge evs).fail_actions) ∧
    run_challenge [ChallengeEv.verify_ok, ChallengeEv.elapse,
        ChallengeEv.fire_refetch, ChallengeEv.fire_enforce] =
      { record := false, timer := TimerState.cancelled, fail_actions := 0,
        audit_entries := 0, solved := true } ∧
    run_challenge [ChallengeEv.verify_ok_other, ChallengeEv.elapse,
        ChallengeEv.fire_refetch, ChallengeEv.fire_enforce] =
      { record := false, timer := TimerState.done, fail_actions := 0,
        audit_entries := 0, solved := true } ∧
    run_challenge [ChallengeEv.elapse, ChallengeEv.verify_ok,
        ChallengeEv.fire_refetch, ChallengeEv.fire_enforce] =
      { record := false, timer := TimerState.cancelled, fail_actions := 0,
        audit_entries := 0, solved := true } ∧
    run_challenge [ChallengeEv.elapse, ChallengeEv.fire_refetch,
        ChallengeEv.fire_enforce] =
      { record := false, timer := TimerState.done, fail_actions := 1,
        audit_entries := 1, solved := false } ∧
    run_challenge [ChallengeEv.elapse, ChallengeEv.fire_refetch,
        ChallengeEv.fire_enforce, ChallengeEv.fire_refetch,
        ChallengeEv.fire_enforce] =
      { record := false, timer := TimerState.done, fail_actions := 1,
        audit_entries := 1, solved := false } ∧
    run_challenge [ChallengeEv.elapse, ChallengeEv.fire_refetch,
        ChallengeEv.verify_ok_other, ChallengeEv.fire_enforce] =
      { record := false, timer := TimerState.done, fail_actions := 1,
        audit_entries := 1, solved := true } := by
  refine ⟨?_, by decide, by decide, by decide, by decide, by decide, by decide⟩
  intro evs
  obtain ⟨haudit, hle, -⟩ := challenge_inv_run evs
  exact ⟨hle, haudit⟩

/-- Python `str.lower()` restricted to the alphabets this codebase deals
with: ASCII `A-Z` and Cyrillic `А-Я`/`Ё` are mapped to their lowercase
forms; every other character is unchanged. -/
def charLower (c : Char) : Char :=
  if 65 ≤ c.toNat ∧ c.toNat ≤ 90 then Char.ofNat (c.toNat + 32)
  else if 1040 ≤ c.toNat ∧ c.toNat ≤ 1071 then Char.ofNat (c.toNat + 32)
  else if c.toNat = 1025 then Char.ofNat 1105
  else c

/-- Python `str.strip()`: drop whitespace from both ends. -/
def pyStrip (s : String) : String :=
  String.mk (((s.toList.dropWhile Char.isWhitespace).reverse.dropWhile
    Char.isWhitespace).reverse)

/-- Python `str.lower()` over a whole string. -/
def pyLower (s : String) : String :=
  String.mk (s.toList.map charLower)

/-- A stored admission challenge, from the dataclass `Captcha` of
`app/moderation/models.py`. -/
structure Captcha where
  id : String
  chat_id : Int
  user_id : Int
  question : String
  answer : String
  expires_at : ℚ
  message_id : Option Int := none
deriving DecidableEq

/-- Answer comparison used by the live verification path, from
`CaptchaProvider.verify` (`app/moderation/captcha.py` lines 176-186):
`user_answer.strip() == correct_answer.strip()` — trimmed,
case-sensitive. -/
def provider_verify (user_answer correct_answer : String) : Bool :=
  pyStrip user_answer == pyStrip correct_answer

/-- Answer comparison of the model class, from `Captcha.verify`
(`app/moderation/models.py` lines 206-208):
`user_answer.strip().lower() == self.answer.strip().lower()` — trimmed
and case-insensitive.  This method is never called by the manager's
verification path. -/
def Captcha.verify (c : Captcha) (user_answer : String) : Bool :=
  pyLower (pyStrip user_answer) == pyLower (pyStrip c.answer)

/-- Verification against the live challenge of a (chat, user), from
`CaptchaManager.verify_answer` (`app/moderation/captcha.py` lines
419-462): with no live challenge the result is false; otherwise the
answer is compared by `CaptchaProvider.verify`.  The argument is the
re-fetched `captcha:` record for the pair. -/
def verify_answer (live : Option Captcha) (answer : String) : Bool :=
  match live with
  | none => false
  | some captcha => provider_verify answer captcha.answer

/-- A live challenge whose stored answer contains a letter. -/
def captcha_letter : Captcha :=
  { id := "c1", chat_id := 1, user_id := 2, question := "q",
    answer := "X", expires_at := 0 }

/-- C4 counterexample: with a live challenge storing answer "X", the
submitted answer "x" is equal after trimming under case-insensitive
comparison (as `Captcha.verify` of the model class would report), yet
`verify_answer` returns false, because the live path compares
case-sensitively. -/
theorem verify_answer_case_cex :
    verify_answer (some captcha_letter) "x" = false ∧
    pyLower (pyStrip "x") = pyLower (pyStrip captcha_letter.answer) ∧
    Captcha.verify captcha_letter "x" = true := by
  refine ⟨by decide, by decide, by decide⟩

/-- C4 (amended): for any live challenge, `verify_answer` returns true
exactly when the submitted answer equals the stored answer after
trimming surrounding whitespace, compared case-sensitively; with no live
challenge it returns false. -/
theorem verify_answer_iff (live : Option Captcha) (answer : String) :
    verify_answer live answer = true ↔
      ∃ c, live = some c ∧ pyStrip answer = pyStrip c.answer := by
  cases live with
  | none => simp [verify_answer]
  | some c => simp [verify_answer, provider_verify, beq_iff_eq]

/-- Newbie test, from `SpamFilter.is_newbie` (`app/moderation/spam.py`
lines 287-306): with no recorded join time the user is treated as a
newbie; otherwise the user is a newbie when the hours since joining are
below `link_newbie_hours`. -/
def is_newbie (s : ChatModSettings) (join_time : Option ℚ) (now : ℚ) : Bool :=
  match join_time with
  | none => true
  | some j => decide ((now - j) / 3600 < (s.link_newbie_hours : ℚ))

/-- Whitelist test, from `SpamFilter.is_link_whitelisted`
(`app/moderation/spam.py` lines 321-334): the link is whitelisted when
some whitelist entry, lowercased, occurs as a substring of the
lowercased link. -/
def is_link_whitelisted (s : ChatModSettings) (link : String) : Bool :=
  s.link_whitelist.any (fun d => decide ((pyLower d).toList <:+: (pyLower link).toList))

/-- The newbie link gate, from `SpamFilter.check_newbie_links`
(`app/moderation/spam.py` lines 336-364).  The URL-like substrings that
`extract_links` finds in the message text are passed in as `links` (the
extraction itself is a fixed regular expression over the text). -/
def check_newbie_links (s : ChatModSettings) (join_time : Option ℚ)
    (links : List String) (now : ℚ) : Option String :=
  if ¬ s.link_filter_enabled then none
  else if ¬ is_newbie s join_time now then none
  else if links.isEmpty then none
  else
    match links.find? (fun l => ! is_link_whitelisted s l) with
    | some _ => some s.link_action
    | none => none

/-- C6: the gate is absent when the link filter is disabled; a user with
no join record is a newbie (fail-closed), a user who joined less than
`link_newbie_hours` ago is a newbie; and the gate returns the configured
`link_action` exactly when it is enabled, the user is a newbie, and some
link is not whitelisted — where whitelisting is substring containment of
a lowercased whitelist entry in the lowercased link, not an exact host
match.  In every other case the gate is absent. -/
theorem newbie_link_gate (s : ChatModSettings) (join_time : Option ℚ)
    (links : List String) (now : ℚ) :
    (s.link_filter_enabled = false → check_newbie_links s join_time links now = none) ∧
    is_newbie s none now = true ∧
    (∀ j, join_time = some j →
      (is_newbie s join_time now = true ↔ (now - j) / 3600 < (s.link_newbie_hours : ℚ))) ∧
    (∀ l, is_link_whitelisted s l = true ↔
      ∃ d ∈ s.link_whitelist, (pyLower d).toList <:+: (pyLower l).toList) ∧
    (∀ a, check_newbie_links s join_time links now = some a ↔
      (s.link_filter_enabled = true ∧ is_newbie s join_time now = true ∧
       (∃ l ∈ links, is_link_whitelisted s l = false) ∧ a = s.link_action)) := by
  refine ⟨?_, rfl, ?_, ?_, ?_⟩
  · intro h
    simp [check_newbie_links, h]
  · intro j hj
    subst hj
    simp [is_newbie]
  · intro l
    simp [is_link_whitelisted, List.any_eq_true]
  · intro a
    unfold check_newbie_links
    by_cases h1 : s.link_filter_enabled = true
    · by_cases h2 : is_newbie s join_time now = true
      · rw [if_neg (not_not_intro h1), if_neg (not_not_intro h2)]
        cases hf : links.find? (fun l => ! is_link_whitelisted s l) with
        | none =>
            rw [List.find?_eq_none] at hf
            constructor
            · intro hc
              split at hc <;> simp_all
            · rintro ⟨-, -, ⟨l, hl, hw⟩, -⟩
              exact absurd (by simp [hw]) (hf l hl)
        | some x =>
            have hne : links.isEmpty = false := by
              cases links
              · simp at hf
              · rfl
            rw [if_neg (by simp [hne])]
            have hx : x ∈ links := List.mem_of_find?_eq_some hf
            have hpx := List.find?_some hf
            simp only [Bool.not_eq_true'] at hpx
            constructor
            · intro he
              simp only [Option.some.injEq] at he
              exact ⟨h1, h2, ⟨x, hx, hpx⟩, he.symm⟩
            · rintro ⟨-, -, -, ha⟩
              simp [ha]
      · rw [if_neg (not_not_intro h1), if_pos h2]
        simp only [Bool.not_eq_true] at h2
        simp [h2]
    · rw [if_pos h1]
      simp only [Bool.not_eq_true] at h1
      simp [h1]

/-- Witness: `newbie_link_gate` at concrete inputs — a user with no join
record posting a link with an empty whitelist receives the configured
action ("hold" in the dataclass defaults). -/
theorem newbie_link_gate_witness :
    is_newbie (get_default_settings 0) none 0 = true ∧
    check_newbie_links (dataclass_defaults 0) none ["http://x.example"] 0 =
      some "hold" :=
  ⟨(newbie_link_gate (get_default_settings 0) none [] 0).2.1,
   ((newbie_link_gate (dataclass_defaults 0) none ["http://x.example"] 0).2.2.2.2
      "hold").mpr ⟨rfl, rfl, ⟨"http://x.example", by simp, rfl⟩, rfl⟩⟩

/-- The character class `[а-яёa-z0-9]` of the boundary lookarounds in
`ContentFilter._compile_patterns` (`app/moderation/content_filter.py`
line 57), under `re.IGNORECASE`, which makes the class also cover the
uppercase forms `A-Z`, `А-Я` and `Ё`. -/
def isWordCharClass (c : Char) : Bool :=
  decide ((97 ≤ c.toNat ∧ c.toNat ≤ 122) ∨ (65 ≤ c.toNat ∧ c.toNat ≤ 90) ∨
    (48 ≤ c.toNat ∧ c.toNat ≤ 57) ∨
    (1072 ≤ c.toNat ∧ c.toNat ≤ 1103) ∨ (1040 ≤ c.toNat ∧ c.toNat ≤ 1071) ∨
    c.toNat = 1105 ∨ c.toNat = 1025)

/-- Semantics of the compiled pattern
`(?<![а-яёa-z0-9])(word)(?![а-яёa-z0-9])` with `re.IGNORECASE` at one
position of the text: the escaped word matches literally but
case-insensitively, the preceding character (if any) is outside the
word-character class, and so is the following character. -/
def matchesWordAt (text word : List Char) (i : Nat) : Bool :=
  (List.range word.length).all (fun k =>
    match text[i + k]?, word[k]? with
    | some a, some b => charLower a == charLower b
    | _, _ => false) &&
  (match i with
   | 0 => true
   | j + 1 =>
     match text[j]? with
     | some a => ! isWordCharClass a
     | none => true) &&
  (match text[i + word.length]? with
   | some a => ! isWordCharClass a
   | none => true)

/-- Semantics of `pattern.search(text)`: the word matches, with its
boundaries, at some position. -/
def searchWord (text word : List Char) : Bool :=
  (List.range (text.length + 1)).any (fun i => matchesWordAt text word i)

/-- Pattern compilation, from `ContentFilter._compile_patterns`
(`app/moderation/content_filter.py` lines 44-63): empty words are
skipped (`re.escape` makes each word literal, so no compile error
branch is reachable and every nonempty word yields a pattern). -/
def compile_patterns (s : ChatModSettings) : List String :=
  s.filter_words.filter (fun w => ! (w == ""))

/-- Result of a content-filter check, from the dataclass
`FilterCheckResult` of `app/moderation/content_filter.py`. -/
structure FilterCheckResult where
  is_filtered : Bool
  matched_word : Option String := none
deriving DecidableEq

/-- The blacklist check, from `ContentFilter.check`
(`app/moderation/content_filter.py` lines 76-94): empty text or an
empty word list never filters; otherwise the first word in pattern
order whose bounded, case-insensitive occurrence is found in the text is
reported. -/
def filter_check (s : ChatModSettings) (text : String) : FilterCheckResult :=
  if text = "" ∨ s.filter_words = [] then { is_filtered := false }
  else
    match (compile_patterns s).find? (fun w => searchWord text.toList w.toList) with
    | some w => { is_filtered := true, matched_word := some w }
    | none => { is_filtered := false }

/-- A chat whose blacklist contains only the word "spam". -/
def spam_settings : ChatModSettings :=
  { chat_id := 0, filter_words := ["spam"] }

/-- C9: blacklist matching is case-insensitive and word-bounded.  With
"spam" blacklisted, "this is spam!" is filtered with matched word "spam"
(a boundary adjacent to punctuation passes) and so is "This is SPAM!",
while "spammy" is not filtered; and in general a match never sits inside
a larger token: any character directly after a matched occurrence, and
any character directly before it, lies outside the word-character
class. -/
theorem filter_word_boundary :
    filter_check spam_settings "this is spam!" =
      { is_filtered := true, matched_word := some "spam" } ∧
    filter_check spam_settings "spammy" = { is_filtered := false } ∧
    filter_check spam_settings "This is SPAM!" =
      { is_filtered := true, matched_word := some "spam" } ∧
    (∀ text word : List Char, ∀ i : Nat, ∀ a : Char,
      matchesWordAt text word i = true → text[i + word.length]? = some a →
      isWordCharClass a = false) ∧
    (∀ text word : List Char, ∀ j : Nat, ∀ a : Char,
      matchesWordAt text word (j + 1) = true → text[j]? = some a →
      isWordCharClass a = false) := by
  refine ⟨by decide, by decide, by decide, ?_, ?_⟩
  · intro text word i a hm ha
    unfold matchesWordAt at hm
    rw [Bool.and_eq_true, Bool.and_eq_true] at hm
    have hc := hm.2
    rw [ha] at hc
    simpa using hc
  · intro text word j a hm ha
    unfold matchesWordAt at hm
    rw [Bool.and_eq_true, Bool.and_eq_true] at hm
    have hb : (match text[j]? with
        | some a => ! isWordCharClass a
        | none => true) = true := hm.1.2
    rw [ha] at hb
    simpa using hb

/-- Witness: `filter_word_boundary` applied at a concrete match — "spam"
matches "spam!" at position 0, and the following character, the
exclamation mark (code point 33), is outside the word-character
class. -/
theorem filter_word_boundary_witness :
    matchesWordAt "spam!".toList "spam".toList 0 = true ∧
    isWordCharClass (Char.ofNat 33) = false :=
  ⟨by decide,
   filter_word_boundary.2.2.2.1 "spam!".toList "spam".toList 0 (Char.ofNat 33)
     (by decide) (by decide)⟩

end Sigmoida
